import Mathlib

/-!
Verification development for the aaisp-exporter collector core:
a shallow embedding of the tiered collection scheduler
(`collectors/manager.py`), the collector contract (`collectors/base.py`),
the broadband quota collector (`collectors/broadband.py`) and the
interval configuration (`core/config.py`), together with theorems about
the behaviour of those definitions.

Numeric values are modelled as exact rationals (`ℚ`); IEEE-754 rounding
to the nearest double is abstracted away, but the overflow boundary of
the double range is modelled exactly, since crossing it changes the
kind of outcome (an `OverflowError` from `float(int)`, an infinite
result from `float(str)`) rather than only its precision.  Python's
`float(str)` conversion is modelled in two layers: `pyFloatOfString`
covers finite decimal numerals without digit grouping and feeds the
finite-range `_parse_bytes` used by the quota-state theorems, while
`pyFloatParse` is the full model — digit-grouping underscores,
`inf`/`infinity`/`nan` forms and overflow to infinity included — and
feeds the exception-faithful `parse_bytes_exc`.
-/

namespace AaispExporter

/-- A JSON-like value, as returned by the CHAOS API client.  Python's
`bool` is a subclass of `int`, so it is kept as a separate constructor
whose numeric value is 1 or 0. -/
inductive JSON where
  | int (n : ℤ)
  | float (q : ℚ)
  | str (s : String)
  | bool (b : Bool)
  | null
  | arr (xs : List JSON)
  | obj (fields : List (String × JSON))

/-- Whitespace characters stripped by Python's `float(str)`. -/
def isPySpace (c : Char) : Bool :=
  c = ' ' || c = '\t' || c = '\n' || c = '\r' || c = '\x0b' || c = '\x0c'

/-- Strip leading and trailing whitespace. -/
def trimWs (cs : List Char) : List Char :=
  ((cs.dropWhile isPySpace).reverse.dropWhile isPySpace).reverse

/-- Numeric value of a digit string. -/
def digitsVal (cs : List Char) : ℕ :=
  cs.foldl (fun a c => 10 * a + (c.toNat - 48)) 0

/-- Split a character list at the first character satisfying `p`:
returns the part before it and, when found, the part after it. -/
def splitFirst (p : Char → Bool) : List Char → List Char × Option (List Char)
  | [] => ([], none)
  | c :: cs =>
    if p c then ([], some cs)
    else
      let r := splitFirst p cs
      (c :: r.1, r.2)

/-- Consume an optional leading sign; `true` means negative. -/
def parseSign : List Char → Bool × List Char
  | '-' :: cs => (true, cs)
  | '+' :: cs => (false, cs)
  | cs => (false, cs)

/-- Parse an unsigned decimal mantissa: `digits`, `digits.digits`,
`.digits` or `digits.` (at least one digit overall). -/
def parseMantissa (cs : List Char) : Option ℚ :=
  let sp := splitFirst (· = '.') cs
  match sp.2 with
  | none =>
    if !sp.1.isEmpty && sp.1.all (·.isDigit) then some ((digitsVal sp.1 : ℚ))
    else none
  | some fp =>
    if (!sp.1.isEmpty || !fp.isEmpty) && sp.1.all (·.isDigit) && fp.all (·.isDigit) then
      some ((digitsVal sp.1 : ℚ) + (digitsVal fp : ℚ) / ((10 : ℚ) ^ fp.length))
    else none

/-- Parse the part after `e`/`E`: optional sign then digits. -/
def parseExpPart (cs : List Char) : Option ℤ :=
  let s := parseSign cs
  if !s.2.isEmpty && s.2.all (·.isDigit) then
    some (if s.1 then -(digitsVal s.2 : ℤ) else (digitsVal s.2 : ℤ))
  else none

/-- Model of Python's `float(s)` restricted to finite decimal numerals
without digit-grouping underscores: `none` models a raised
`ValueError`.  The full model of `float(s)` — underscore grouping,
`inf`/`infinity`/`nan` and overflow to infinity included — is
`pyFloatParse` below; this restriction feeds the finite-range
`_parse_bytes` used by the quota-state theorems, whose inputs stay in
this fragment. -/
def pyFloatOfString (s : String) : Option ℚ :=
  let signed := parseSign (trimWs s.data)
  let sp := splitFirst (fun c => c = 'e' || c = 'E') signed.2
  match parseMantissa sp.1, sp.2 with
  | none, _ => none
  | some m, none => some (if signed.1 then -m else m)
  | some m, some ec =>
    match parseExpPart ec with
    | none => none
    | some ex => some (if signed.1 then -(m * (10 : ℚ) ^ ex) else m * (10 : ℚ) ^ ex)

/-- `BroadbandQuotaCollector._parse_bytes` (broadband.py lines 111-129)
restricted to the finite double range: ints and floats (and bools,
which are ints in Python) convert via `float(value)`; strings are
converted with `float`, falling back to `0.0` on `ValueError`; every
other value returns `0.0`.  This restriction totalizes the int branch,
whose `float(value)` call in the source sits outside any `try` and
raises an uncaught `OverflowError` for ints beyond the double range;
the exception-faithful model of the same source function is
`parse_bytes_exc` below.  The quota-state theorems use this finite
fragment, whose inputs stay in range. -/
def _parse_bytes : JSON → ℚ
  | .int n => (n : ℚ)
  | .float q => q
  | .bool b => if b then 1 else 0
  | .str s => (pyFloatOfString s).getD 0
  | .null => 0
  | .arr _ => 0
  | .obj _ => 0

/-- Python exceptions that can cross the boundaries modelled here. -/
inductive PyExc where
  | valueError (msg : String)
  | overflowError (msg : String)
  | authError (msg : String)
  | rateLimitError (msg : String)
  | genericAPIError (msg : String)
  | exception (msg : String)
deriving DecidableEq

/-- `type(e).__name__`, as used for the error-counter label. -/
def typeName : PyExc → String
  | .valueError _ => "ValueError"
  | .overflowError _ => "OverflowError"
  | .authError _ => "AuthError"
  | .rateLimitError _ => "RateLimitError"
  | .genericAPIError _ => "GenericAPIError"
  | .exception _ => "Exception"

/-- Python `dict.get(k)` on a JSON object (keys unique, first match). -/
def dictGet (d : List (String × JSON)) (k : String) : Option JSON :=
  match d with
  | [] => none
  | (k2, v) :: rest => if k2 = k then some v else dictGet rest k

/-- Python `str(v)`, as applied by prometheus-client to label values.
Renderings of numeric and container values approximate CPython's. -/
def pyStr : JSON → String
  | .str s => s
  | .int n => toString n
  | .float q => toString q
  | .bool b => if b then "True" else "False"
  | .null => "None"
  | .arr _ => "[...]"
  | .obj _ => "{...}"

/-- The label set of the broadband quota gauges. -/
structure QuotaLabels where
  service : String
  login : String
deriving DecidableEq

/-- The four gauges owned by `BroadbandQuotaCollector`, each a partial
map from label combination to last-set value (`none` = never set). -/
structure QuotaState where
  quota_total : QuotaLabels → Option ℚ
  quota_used : QuotaLabels → Option ℚ
  quota_remaining : QuotaLabels → Option ℚ
  quota_percentage : QuotaLabels → Option ℚ

/-- `Gauge.labels(**labels).set(v)`: point update of one gauge. -/
def gaugeSet (g : QuotaLabels → Option ℚ) (l : QuotaLabels) (v : ℚ) :
    QuotaLabels → Option ℚ :=
  fun l2 => if l2 = l then some v else g l2

/-- The `login` label computed at broadband.py line 77:
`quota_data.get("login", self.settings.auth.control_login or "unknown")`
(Python `or` maps an empty login to `"unknown"`). -/
def loginOf (d : List (String × JSON)) (controlLogin : Option String) : String :=
  match dictGet d "login" with
  | some j => pyStr j
  | none =>
    match controlLogin with
    | some s => if s = "" then "unknown" else s
    | none => "unknown"

/-- `BroadbandQuotaCollector._collect_service_quota` (broadband.py lines
71-109).  `fetch` is the outcome of `client.broadband_quota(service)`;
an error there is re-raised.  Field values default to `0` via
`.get(key, 0)`, percentage is `used / total * 100` when `total > 0`
else `0`, and all four gauges are then set. -/
def _collect_service_quota (service : String)
    (fetch : Except PyExc (List (String × JSON)))
    (controlLogin : Option String) (st : QuotaState) : Except PyExc QuotaState :=
  match fetch with
  | .error e => .error e
  | .ok quota_data =>
    let login := loginOf quota_data controlLogin
    let total := _parse_bytes ((dictGet quota_data "quota").getD (.int 0))
    let used := _parse_bytes ((dictGet quota_data "used").getD (.int 0))
    let remaining := _parse_bytes ((dictGet quota_data "remaining").getD (.int 0))
    let percentage := if total > 0 then used / total * 100 else 0
    let labels : QuotaLabels := ⟨service, login⟩
    .ok
      { quota_total := gaugeSet st.quota_total labels total
        quota_used := gaugeSet st.quota_used labels used
        quota_remaining := gaugeSet st.quota_remaining labels remaining
        quota_percentage := gaugeSet st.quota_percentage labels percentage }

/-- One iteration of the per-service loop in `_collect_impl`
(broadband.py lines 57-65): a per-service failure is caught and logged,
leaving the state unchanged. -/
def quotaFoldStep (fetchQuota : String → Except PyExc (List (String × JSON)))
    (controlLogin : Option String) (st : QuotaState) (service : String) : QuotaState :=
  match _collect_service_quota service (fetchQuota service) controlLogin st with
  | .ok st2 => st2
  | .error _ => st

/-- `BroadbandQuotaCollector._collect_impl` (broadband.py lines 45-69):
skip everything when the broadband collector is disabled; re-raise a
failure of the entity-listing call; otherwise loop over the services,
catching per-service failures. -/
def _collect_impl (enable_broadband : Bool)
    (services : Except PyExc (List String))
    (fetchQuota : String → Except PyExc (List (String × JSON)))
    (controlLogin : Option String) (st : QuotaState) : Except PyExc QuotaState :=
  if !enable_broadband then .ok st
  else
    match services with
    | .error e => .error e
    | .ok svcs => .ok (svcs.foldl (quotaFoldStep fetchQuota controlLogin) st)

/-- Identity of one metric time series: metric name plus label pairs. -/
structure MetricKey where
  metric : String
  labels : List (String × String)
deriving DecidableEq

/-- The process-wide metric registry: last value per series. -/
def Registry : Type := MetricKey → Option ℚ

/-- A collector as seen by the tier fan-out: its name and the outcome
of one `collect()` call — either an exception or the gauge writes it
performs on the metrics it owns. -/
structure TierCollector where
  name : String
  run : Except PyExc (List (MetricKey × ℚ))

/-- Apply a list of gauge writes to the registry, in order. -/
def applyWrites (reg : Registry) : List (MetricKey × ℚ) → Registry
  | [] => reg
  | kv :: ws => applyWrites (fun k => if k = kv.1 then some kv.2 else reg k) ws

/-- The metric keys a collector writes on a successful run. -/
def keysOf (c : TierCollector) : List MetricKey :=
  match c.run with
  | .ok ws => ws.map Prod.fst
  | .error _ => []

/-- `asyncio.gather` over the collectors' `collect()` calls.  With
`returnExceptions = true` (as `collect_tier` passes) an exception is
recorded in the result list and the remaining collectors still run;
with `returnExceptions = false` it propagates. -/
def gather (returnExceptions : Bool) (reg : Registry) :
    List TierCollector → Except PyExc (Registry × List (Option PyExc))
  | [] => .ok (reg, [])
  | c :: cs =>
    match c.run with
    | .ok ws =>
      match gather returnExceptions (applyWrites reg ws) cs with
      | .ok r => .ok (r.1, none :: r.2)
      | .error e => .error e
    | .error e =>
      if returnExceptions then
        match gather returnExceptions reg cs with
        | .ok r => .ok (r.1, some e :: r.2)
        | .error e2 => .error e2
      else .error e

/-- The pure result of the `return_exceptions=True` fan-out: final
registry and the per-collector outcome list. -/
def gatherRE (reg : Registry) : List TierCollector → Registry × List (Option PyExc)
  | [] => (reg, [])
  | c :: cs =>
    match c.run with
    | .ok ws =>
      let r := gatherRE (applyWrites reg ws) cs
      (r.1, none :: r.2)
    | .error e =>
      let r := gatherRE reg cs
      (r.1, some e :: r.2)

/-- `CollectorManager.collect_tier` (manager.py lines 76-98) on a
non-empty collector list: `asyncio.gather(..., return_exceptions=True)`
across every collector of the tier. -/
def collect_tier (cs : List TierCollector) (reg : Registry) :
    Except PyExc (Registry × List (Option PyExc)) :=
  gather true reg cs

/-- `UpdateTier` (core/constants.py). -/
inductive UpdateTier where
  | fast
  | medium
  | slow
deriving DecidableEq

/-- The iteration order of `UpdateTier` in Python (`for tier in UpdateTier`). -/
def allTiers : List UpdateTier := [.fast, .medium, .slow]

/-- `UpdateIntervals` (core/config.py lines 81-109): one interval per
tier, in seconds. -/
structure UpdateIntervals where
  fast : ℤ
  medium : ℤ
  slow : ℤ
deriving DecidableEq

/-- Lower validation bound per tier (`ge=` of each pydantic Field). -/
def intervalLo : UpdateTier → ℤ
  | .fast => 10
  | .medium => 60
  | .slow => 300

/-- Upper validation bound per tier (`le=` of each pydantic Field). -/
def intervalHi : UpdateTier → ℤ
  | .fast => 3600
  | .medium => 3600
  | .slow => 7200

/-- Constructing `UpdateIntervals(fast=f, medium=m, slow=s)`: pydantic
validates each field against its `ge`/`le` bounds and raises
`ValidationError` (modelled as `none`) when any is out of range. -/
def mkUpdateIntervals (f m s : ℤ) : Option UpdateIntervals :=
  if 10 ≤ f ∧ f ≤ 3600 ∧ 60 ≤ m ∧ m ≤ 3600 ∧ 300 ≤ s ∧ s ≤ 7200 then
    some ⟨f, m, s⟩
  else none

/-- `UpdateIntervals.get_interval` (config.py lines 103-109). -/
def get_interval (u : UpdateIntervals) : UpdateTier → ℤ
  | .fast => u.fast
  | .medium => u.medium
  | .slow => u.slow

/-- Status of one tier-loop `asyncio.Task`. -/
inductive TaskStatus where
  | running
  | cancelled
deriving DecidableEq

/-- One tier-loop task created by `start()`. -/
structure SchedTask where
  tier : UpdateTier
  status : TaskStatus
deriving DecidableEq

/-- `CollectorManager` state: `_running`, `_tasks`, the per-tier
collector map, the metric registry, and a log of the tiers for which a
collection pass has been attempted (observation of `collect_tier`
invocations). -/
structure ManagerState where
  running : Bool
  tasks : List SchedTask
  collectors : UpdateTier → List TierCollector
  registry : Registry
  passes : List UpdateTier

/-- `CollectorManager.collect_tier` at the manager level (manager.py
lines 76-98): an early return when the tier has no collectors,
otherwise the `return_exceptions=True` fan-out; each invocation is one
attempted pass for the tier. -/
def collect_tier_m (st : ManagerState) (tier : UpdateTier) : ManagerState :=
  if (st.collectors tier).isEmpty then
    { st with passes := st.passes ++ [tier] }
  else
    let r := gatherRE st.registry (st.collectors tier)
    { st with registry := r.1, passes := st.passes ++ [tier] }

/-- `CollectorManager.start` (manager.py lines 129-153): return
unchanged when already running; otherwise set `_running`, create one
loop task per tier that has collectors, then run one initial collection
pass across all tiers before returning. -/
def start (st : ManagerState) : ManagerState :=
  if st.running then st
  else
    let st1 : ManagerState := { st with running := true }
    let newTasks :=
      (allTiers.filter (fun t => !(st1.collectors t).isEmpty)).map
        (fun t => SchedTask.mk t .running)
    let st2 : ManagerState := { st1 with tasks := st1.tasks ++ newTasks }
    allTiers.foldl collect_tier_m st2

/-- `task.cancel()` on every tier-loop task: each loop observes
`CancelledError` at its next suspension point (its interval sleep). -/
def cancelAll (ts : List SchedTask) : List SchedTask :=
  ts.map (fun t => ⟨t.tier, TaskStatus.cancelled⟩)

/-- `CollectorManager.stop` (manager.py lines 155-171): return
unchanged when not running; otherwise clear `_running`, cancel every
task, await them all (`gather(..., return_exceptions=True)`, returning
each task's observed terminal status), then clear the task list. -/
def stop (st : ManagerState) : ManagerState × List TaskStatus :=
  if !st.running then (st, [])
  else
    let st1 : ManagerState := { st with running := false }
    let cancelled := cancelAll st1.tasks
    let awaited := cancelled.map SchedTask.status
    ({ st1 with tasks := [] }, awaited)

/-- The value returned by `CollectorManager.get_status`. -/
structure StatusView where
  running : Bool
  collectors : UpdateTier → List String
  intervals : UpdateTier → ℤ

/-- `CollectorManager.get_status` (manager.py lines 173-190): a pure
read of the running flag, collector names per tier and configured
intervals. -/
def get_status (st : ManagerState) (ivs : UpdateIntervals) : StatusView :=
  ⟨st.running, fun t => (st.collectors t).map TierCollector.name,
    fun t => get_interval ivs t⟩

/-- One scan step of `str.replace(pat, rep)`: fuel-indexed structural
recursion (the fuel never runs out when it starts at the input length,
since a non-empty pattern match consumes at least one character). -/
def replaceGo (pat rep : List Char) : ℕ → List Char → List Char
  | 0, cs => cs
  | _ + 1, [] => []
  | fuel + 1, c :: cs =>
    if !pat.isEmpty && pat.isPrefixOf (c :: cs) then
      rep ++ replaceGo pat rep fuel ((c :: cs).drop pat.length)
    else c :: replaceGo pat rep fuel cs

/-- Python `str.replace(pat, rep)` for a non-empty pattern. -/
def replaceAllChars (pat rep cs : List Char) : List Char :=
  replaceGo pat rep cs.length cs

/-- `MetricCollector._get_subsystem_name` (base.py lines 100-104):
`self.collector_name.replace("Collector", "").lower()`. -/
def _get_subsystem_name (collectorName : String) : String :=
  ⟨(replaceAllChars "Collector".data [] collectorName.data).map Char.toLower⟩

/-- The three shared instruments of §4.3 (base.py lines 24-26):
duration-histogram observations keyed by (collector name, subsystem),
the error counter keyed by (collector name, subsystem, error type), and
the last-success timestamp gauge keyed by collector name. -/
structure InstrState where
  durationObs : List (String × String × ℚ)
  errors : String × String × String → ℕ
  lastSuccess : String → Option ℚ

/-- `MetricCollector.collect` (base.py lines 106-155): wrap
`_collect_impl` (whose outcome is `impl`); on success observe the
duration (`t1 - t0`) and set the last-success gauge to `t2` (a fresh
`time.time()` call); on an exception increment the error counter at
(name, subsystem, `type(e).__name__`) and re-raise the same exception.
The second component models the exception escaping `collect`. -/
def collect (collectorName : String) (impl : Except PyExc Unit)
    (t0 t1 t2 : ℚ) (st : InstrState) : InstrState × Option PyExc :=
  let subsystem := _get_subsystem_name collectorName
  match impl with
  | .ok _ =>
    ({ st with
        durationObs := st.durationObs ++ [(collectorName, subsystem, t1 - t0)]
        lastSuccess := fun n => if n = collectorName then some t2 else st.lastSuccess n },
      none)
  | .error e =>
    ({ st with
        errors := fun k =>
          if k = (collectorName, subsystem, typeName e) then st.errors k + 1
          else st.errors k },
      some e)

/-- All four quota gauges carry a value at label combination `l`. -/
def quotaSetAt (st : QuotaState) (l : QuotaLabels) : Prop :=
  st.quota_total l ≠ none ∧ st.quota_used l ≠ none ∧
    st.quota_remaining l ≠ none ∧ st.quota_percentage l ≠ none

/-- A quota state in which no gauge has ever been set. -/
def emptyQuotaState : QuotaState :=
  ⟨fun _ => none, fun _ => none, fun _ => none, fun _ => none⟩

/-- The quota response of the spec's concrete example: monthly total
and remaining present under `quota_monthly` / `quota_remaining`, no
`used` field. -/
def specQuotaResp : List (String × JSON) :=
  [("quota_monthly", .int 1000000000), ("quota_remaining", .int 500000000)]

/-- Detail fetch used in concrete runs: service `"bad"` raises, every
other service returns a quota of 100 bytes. -/
def demoFetchQ : String → Except PyExc (List (String × JSON)) :=
  fun svc =>
    if svc = "bad" then .error (.genericAPIError "boom")
    else .ok [("quota", .int 100)]

/-- The single metric series written by `demoCollectorOk`. -/
def demoKey : MetricKey :=
  ⟨"aaisp_broadband_quota_total_bytes", [("service", "s1"), ("login", "l")]⟩

/-- A collector whose `collect()` succeeds and writes one gauge. -/
def demoCollectorOk : TierCollector :=
  ⟨"BroadbandQuotaCollector", .ok [(demoKey, 5)]⟩

/-- A collector whose `collect()` raises. -/
def demoCollectorFail : TierCollector :=
  ⟨"BroadbandInfoCollector", .error (.genericAPIError "boom")⟩

/-- A registry in which no series has been written. -/
def emptyRegistry : Registry := fun _ => none

/-- Demo collector map: two collectors on the fast tier, none elsewhere. -/
def demoCollectors : UpdateTier → List TierCollector
  | .fast => [demoCollectorFail, demoCollectorOk]
  | .medium => []
  | .slow => []

/-- A manager that is currently running one fast-tier loop. -/
def demoRunningState : ManagerState :=
  ⟨true, [⟨.fast, .running⟩], demoCollectors, emptyRegistry, []⟩

/-- A manager that has not been started. -/
def demoStoppedState : ManagerState :=
  ⟨false, [], demoCollectors, emptyRegistry, []⟩

/-- An instrumentation state with no observations. -/
def demoInstr : InstrState := ⟨[], fun _ => 0, fun _ => none⟩

/-- A Python float result: a finite value (exact rational, rounding to
nearest double abstracted), a signed infinity, or NaN. -/
inductive PyFloat where
  | finite (q : ℚ)
  | inf (neg : Bool)
  | nan
deriving DecidableEq

/-- Smallest integer magnitude at which conversion to double overflows:
values at or above `2^1024 - 2^970` (the midpoint above the largest
finite double `2^1024 - 2^971`) round — ties to even — to infinity, so
CPython's `float(int)` raises `OverflowError` there, while everything
strictly below converts to a finite double. -/
def ovfThreshold : ℕ := 2 ^ 1024 - 2 ^ 970

/-- CPython `float(n)` on an int: exact conversion while the rounded
value stays finite, an `OverflowError` once it would be infinite. -/
def float_of_int (n : ℤ) : Except PyExc PyFloat :=
  if n.natAbs < ovfThreshold then .ok (.finite (n : ℚ))
  else .error (.overflowError "int too large to convert to float")

/-- PEP 515 digit grouping: every underscore must be immediately
preceded and followed by a digit (`prev` is the previous character). -/
def underscoresOkAux (prev : Option Char) : List Char → Bool
  | [] => true
  | c :: rest =>
    if c = '_' then
      (match prev with
        | some p => p.isDigit
        | none => false) &&
      (match rest with
        | c2 :: _ => c2.isDigit
        | [] => false) &&
      underscoresOkAux (some c) rest
    else underscoresOkAux (some c) rest

/-- Validate and remove digit-grouping underscores; `none` models the
`ValueError` CPython raises for a misplaced underscore. -/
def stripUnderscores (cs : List Char) : Option (List Char) :=
  if underscoresOkAux none cs then some (cs.filter (· != '_')) else none

/-- Classify a parsed unsigned numeral value: magnitudes reaching the
overflow threshold round to infinity (Python's `float("1e999")` is
`inf`, not an error); smaller magnitudes keep their exact rational
value, with the sign applied. -/
def classifyNumeral (neg : Bool) (m : ℚ) : PyFloat :=
  if (ovfThreshold : ℚ) ≤ m then .inf neg else .finite (if neg then -m else m)

/-- Full model of Python's `float(s)`: strip whitespace, validate and
drop digit-grouping underscores, accept `inf`/`infinity`/`nan`
case-insensitively after an optional sign, otherwise parse a decimal
numeral with optional exponent and classify it against the overflow
threshold.  `none` models a raised `ValueError`. -/
def pyFloatParse (s : String) : Option PyFloat :=
  match stripUnderscores (trimWs s.data) with
  | none => none
  | some cs =>
    let signed := parseSign cs
    let low := signed.2.map Char.toLower
    if low = "inf".data || low = "infinity".data then some (.inf signed.1)
    else if low = "nan".data then some .nan
    else
      let sp := splitFirst (fun c => c = 'e' || c = 'E') signed.2
      match parseMantissa sp.1, sp.2 with
      | none, _ => none
      | some m, none => some (classifyNumeral signed.1 m)
      | some m, some ec =>
        match parseExpPart ec with
        | none => none
        | some ex => some (classifyNumeral signed.1 (m * (10 : ℚ) ^ ex))

/-- `BroadbandQuotaCollector._parse_bytes` (broadband.py lines
111-129), exception-faithful: the `int`/`float` branch calls
`float(value)` outside any `try`, so an out-of-range int raises an
uncaught `OverflowError`; the `str` branch converts with `float`
inside a `try` that catches only `ValueError`, mapping it to `0.0`
(`float` on a string never raises anything else — huge numerals give
infinity); every other value returns `0.0`. -/
def parse_bytes_exc : JSON → Except PyExc PyFloat
  | .int n => float_of_int n
  | .float q => .ok (.finite q)
  | .bool b => .ok (.finite (if b then 1 else 0))
  | .str s => .ok ((pyFloatParse s).getD (.finite 0))
  | .null => .ok (.finite 0)
  | .arr _ => .ok (.finite 0)
  | .obj _ => .ok (.finite 0)

/-- C8: for every tier the configured interval returned by
`get_interval` lies within that tier's bounds (fast 10..3600, medium
60..3600, slow 300..7200), and constructing `UpdateIntervals` with any
out-of-bounds value fails validation at configuration time. -/
theorem interval_bounds_enforced (f m s : ℤ) :
    (∀ u, mkUpdateIntervals f m s = some u →
      ∀ t, intervalLo t ≤ get_interval u t ∧ get_interval u t ≤ intervalHi t) ∧
    (¬(10 ≤ f ∧ f ≤ 3600 ∧ 60 ≤ m ∧ m ≤ 3600 ∧ 300 ≤ s ∧ s ≤ 7200) →
      mkUpdateIntervals f m s = none) := by
  constructor
  · intro u hu t
    unfold mkUpdateIntervals at hu
    split at hu
    · rename_i h
      obtain rfl : (⟨f, m, s⟩ : UpdateIntervals) = u := by
        simpa using hu
      cases t <;> simp only [get_interval, intervalLo, intervalHi] <;> omega
    · exact absurd hu (by simp)
  · intro h
    unfold mkUpdateIntervals
    split
    · exact absurd ‹_› h
    · rfl

/-- Witness for C8: the defaults 60/300/900 validate and sit within the
fast bounds; `fast=5` is rejected at construction time. -/
theorem interval_bounds_enforced_witness :
    (intervalLo .fast ≤ get_interval ⟨60, 300, 900⟩ .fast ∧
      get_interval ⟨60, 300, 900⟩ .fast ≤ intervalHi .fast) ∧
    mkUpdateIntervals 5 300 900 = none :=
  ⟨(interval_bounds_enforced 60 300 900).1 ⟨60, 300, 900⟩ (by decide) .fast,
    (interval_bounds_enforced 5 300 900).2 (by omega)⟩

/-- C9: calling `start()` while the scheduler is already running
returns without creating tasks, performing passes, or changing any
state. -/
theorem start_noop_when_running (st : ManagerState) (h : st.running = true) :
    start st = st := by
  unfold start
  simp [h]

/-- Witness for C9: `start` on a concrete running manager is the
identity. -/
theorem start_noop_when_running_witness : start demoRunningState = demoRunningState :=
  start_noop_when_running demoRunningState rfl

set_option maxRecDepth 8000 in
/-- Counterexample to C10: `_parse_bytes` is not total — on the int
`10 ^ 400` the int branch's `float(value)` call, which sits outside any
`try`/`except`, raises an uncaught `OverflowError` instead of
returning a float. -/
theorem parse_bytes_overflow_cex :
    parse_bytes_exc (.int ((10 ^ 400 : ℕ) : ℤ)) =
      .error (.overflowError "int too large to convert to float") := by
  rfl

/-- C10 amended: `_parse_bytes` returns a float without raising for
every JSON value except an int beyond the double range: ints with
`|n| < 2^1024 - 2^970` and floats return the equivalent value, larger
ints raise an uncaught `OverflowError`; strings are converted with
`float` under a `ValueError` handler, so numeric strings — underscore
grouping, `inf`/`infinity`/`nan` and overflow-to-infinity included —
return their parsed float and non-numeric strings return 0.0; every
other input returns 0.0. -/
theorem parse_bytes_exc_spec :
    (∀ n : ℤ, n.natAbs < ovfThreshold → parse_bytes_exc (.int n) = .ok (.finite (n : ℚ))) ∧
    (∀ n : ℤ, ovfThreshold ≤ n.natAbs →
      parse_bytes_exc (.int n) =
        .error (.overflowError "int too large to convert to float")) ∧
    (∀ q : ℚ, parse_bytes_exc (.float q) = .ok (.finite q)) ∧
    (∀ b : Bool, parse_bytes_exc (.bool b) = .ok (.finite (if b then 1 else 0))) ∧
    (∀ s v, pyFloatParse s = some v → parse_bytes_exc (.str s) = .ok v) ∧
    (∀ s, pyFloatParse s = none → parse_bytes_exc (.str s) = .ok (.finite 0)) ∧
    parse_bytes_exc .null = .ok (.finite 0) ∧
    (∀ xs, parse_bytes_exc (.arr xs) = .ok (.finite 0)) ∧
    (∀ fs, parse_bytes_exc (.obj fs) = .ok (.finite 0)) := by
  refine ⟨?_, ?_, fun q => rfl, fun b => rfl, ?_, ?_, rfl, fun xs => rfl,
    fun fs => rfl⟩
  · intro n h
    simp [parse_bytes_exc, float_of_int, h]
  · intro n h
    simp [parse_bytes_exc, float_of_int, not_lt.mpr h]
  · intro s v h
    simp [parse_bytes_exc, h]
  · intro s h
    simp [parse_bytes_exc, h]

set_option maxRecDepth 8000 in
/-- Witness for amended C10: an in-range int converts exactly, an
underscore-grouped numeral and an infinity form parse as Python does,
and a non-numeric string yields 0. -/
theorem parse_bytes_exc_spec_witness :
    parse_bytes_exc (.int 7) = .ok (.finite 7) ∧
    parse_bytes_exc (.str "1_000") = .ok (.finite 1000) ∧
    parse_bytes_exc (.str "inf") = .ok (.inf false) ∧
    parse_bytes_exc (.str "invalid") = .ok (.finite 0) :=
  ⟨parse_bytes_exc_spec.1 7 (by decide),
    parse_bytes_exc_spec.2.2.2.2.1 "1_000" (.finite 1000) (by decide),
    parse_bytes_exc_spec.2.2.2.2.1 "inf" (.inf false) (by decide),
    parse_bytes_exc_spec.2.2.2.2.2.1 "invalid" (by decide)⟩

/-- C5: `collect()` wraps `_collect_impl`: on a normal return it
observes the duration and sets the last-success gauge for the
collector; on any exception it increments the error counter at
(collector name, subsystem, exception type name), re-raises the same
exception, and leaves the last-success gauge and duration histogram
untouched. -/
theorem collect_wrapper_spec (collectorName : String) (impl : Except PyExc Unit)
    (t0 t1 t2 : ℚ) (st : InstrState) :
    (impl = .ok () →
      collect collectorName impl t0 t1 t2 st =
        ({ st with
            durationObs := st.durationObs ++
              [(collectorName, _get_subsystem_name collectorName, t1 - t0)]
            lastSuccess := fun n =>
              if n = collectorName then some t2 else st.lastSuccess n },
          none)) ∧
    (∀ e, impl = .error e →
      (collect collectorName impl t0 t1 t2 st).2 = some e ∧
      (collect collectorName impl t0 t1 t2 st).1.errors
          (collectorName, _get_subsystem_name collectorName, typeName e) =
        st.errors (collectorName, _get_subsystem_name collectorName, typeName e) + 1 ∧
      (collect collectorName impl t0 t1 t2 st).1.lastSuccess = st.lastSuccess ∧
      (collect collectorName impl t0 t1 t2 st).1.durationObs = st.durationObs) := by
  constructor
  · rintro rfl
    rfl
  · rintro e rfl
    refine ⟨rfl, ?_, rfl, rfl⟩
    simp [collect]

/-- Witness for C5: a failing `_collect_impl` re-raises its exception
and bumps the matching error counter from 0 to 1. -/
theorem collect_wrapper_spec_witness :
    (collect "BroadbandQuotaCollector" (.error (.genericAPIError "boom")) 0 1 2
        demoInstr).2 = some (.genericAPIError "boom") ∧
    (collect "BroadbandQuotaCollector" (.error (.genericAPIError "boom")) 0 1 2
        demoInstr).1.errors
      ("BroadbandQuotaCollector", _get_subsystem_name "BroadbandQuotaCollector",
        "GenericAPIError") = 1 := by
  have h := (collect_wrapper_spec "BroadbandQuotaCollector"
    (.error (.genericAPIError "boom")) 0 1 2 demoInstr).2 (.genericAPIError "boom") rfl
  exact ⟨h.1, h.2.1⟩

/-- `collect_tier_m` always records the attempted pass. -/
theorem collect_tier_m_passes (st : ManagerState) (t : UpdateTier) :
    (collect_tier_m st t).passes = st.passes ++ [t] := by
  unfold collect_tier_m
  split <;> rfl

/-- `collect_tier_m` leaves the running flag unchanged. -/
theorem collect_tier_m_running (st : ManagerState) (t : UpdateTier) :
    (collect_tier_m st t).running = st.running := by
  unfold collect_tier_m
  split <;> rfl

/-- `collect_tier_m` leaves the task list unchanged. -/
theorem collect_tier_m_tasks (st : ManagerState) (t : UpdateTier) :
    (collect_tier_m st t).tasks = st.tasks := by
  unfold collect_tier_m
  split <;> rfl

/-- `collect_tier_m` leaves the collector map unchanged. -/
theorem collect_tier_m_collectors (st : ManagerState) (t : UpdateTier) :
    (collect_tier_m st t).collectors = st.collectors := by
  unfold collect_tier_m
  split <;> rfl

/-- The initial all-tier pass: effect of folding `collect_tier_m` over
the three tiers on every component except the registry. -/
theorem initial_pass_components (st : ManagerState) :
    (allTiers.foldl collect_tier_m st).passes = st.passes ++ allTiers ∧
    (allTiers.foldl collect_tier_m st).running = st.running ∧
    (allTiers.foldl collect_tier_m st).tasks = st.tasks ∧
    (allTiers.foldl collect_tier_m st).collectors = st.collectors := by
  simp [allTiers, List.foldl, collect_tier_m_passes, collect_tier_m_running,
    collect_tier_m_tasks, collect_tier_m_collectors]

/-- Every tier is in the Python iteration order of `UpdateTier`. -/
theorem mem_allTiers (t : UpdateTier) : t ∈ allTiers := by
  cases t <;> simp [allTiers]

/-- C6: `start()` moves a stopped scheduler to running, creates one
loop task per tier that has at least one registered collector, and
performs one collection pass across all tiers before returning, so a
status query immediately after `start()` reports `running=true` with
every populated tier having already attempted a pass. -/
theorem start_runs_initial_pass (st : ManagerState) (ivs : UpdateIntervals)
    (h : st.running = false) :
    (start st).running = true ∧
    (get_status (start st) ivs).running = true ∧
    (start st).passes = st.passes ++ allTiers ∧
    (∀ t, (st.collectors t).isEmpty = false →
      SchedTask.mk t .running ∈ (start st).tasks) ∧
    (start st).collectors = st.collectors := by
  have hstart : start st =
      allTiers.foldl collect_tier_m
        { st with
            running := true
            tasks := st.tasks ++
              (allTiers.filter (fun t => !(st.collectors t).isEmpty)).map
                (fun t => SchedTask.mk t .running) } := by
    unfold start
    simp [h]
  obtain ⟨hp, hr, htk, hc⟩ := initial_pass_components
    { st with
        running := true
        tasks := st.tasks ++
          (allTiers.filter (fun t => !(st.collectors t).isEmpty)).map
            (fun t => SchedTask.mk t .running) }
  refine ⟨?_, ?_, ?_, ?_, ?_⟩
  · rw [hstart, hr]
  · rw [get_status, hstart, hr]
  · rw [hstart, hp]
  · intro t ht
    rw [hstart, htk]
    refine List.mem_append_right _ ?_
    exact List.mem_map.mpr ⟨t, List.mem_filter.mpr ⟨mem_allTiers t, by simp [ht]⟩, rfl⟩
  · rw [hstart, hc]

/-- Witness for C6: starting the demo stopped manager flips the status
to running, logs a pass for every tier and creates the fast-tier task. -/
theorem start_runs_initial_pass_witness :
    (start demoStoppedState).running = true ∧
    (start demoStoppedState).passes = demoStoppedState.passes ++ allTiers ∧
    SchedTask.mk .fast .running ∈ (start demoStoppedState).tasks := by
  have h := start_runs_initial_pass demoStoppedState ⟨60, 300, 900⟩ rfl
  exact ⟨h.1, h.2.2.1, h.2.2.2.1 .fast rfl⟩

/-- C7: `stop()` on a running scheduler signals cancellation to every
tier-loop task, returns only after each has observed cancellation, then
clears the task list; a status query made afterwards reports
`running=false`. -/
theorem stop_cancels_all (st : ManagerState) (ivs : UpdateIntervals)
    (h : st.running = true) :
    (stop st).1.running = false ∧
    (get_status (stop st).1 ivs).running = false ∧
    (stop st).1.tasks = [] ∧
    (stop st).2 = st.tasks.map (fun _ => TaskStatus.cancelled) ∧
    (stop st).2.length = st.tasks.length := by
  unfold stop
  simp [h, get_status, cancelAll, Function.comp_def, List.map_const']

/-- Witness for C7: stopping the running demo manager reports not
running and its single task observed cancellation. -/
theorem stop_cancels_all_witness :
    (stop demoRunningState).1.running = false ∧
    (stop demoRunningState).1.tasks = [] ∧
    (stop demoRunningState).2 =
      demoRunningState.tasks.map (fun _ => TaskStatus.cancelled) := by
  have h := stop_cancels_all demoRunningState ⟨60, 300, 900⟩ rfl
  exact ⟨h.1, h.2.2.1, h.2.2.2.1⟩

/-- Counterexample to C3: on the spec's own input — `quota_monthly` and
`quota_remaining` present, no `used` field — the collector sets the
used gauge to 0 and the percentage gauge to 0 (it reads the fields
`quota`/`used`/`remaining` and never derives `used = max(total -
remaining, 0)`), not 500000000 and 50. -/
theorem quota_derived_used_cex :
    (_collect_service_quota "svc1" (.ok specQuotaResp) none emptyQuotaState).toOption.map
        (fun st => (st.quota_used ⟨"svc1", "unknown"⟩,
          st.quota_percentage ⟨"svc1", "unknown"⟩)) =
      some (some 0, some 0) ∧
    ((0 : ℚ) ≠ 500000000 ∧ (0 : ℚ) ≠ 50) := by
  refine ⟨by decide, by norm_num⟩

/-- C3 amended: the quota collector reads only the fields `quota`,
`used` and `remaining`, each defaulting to 0 when absent; it never
derives a used value from total and remaining, so whenever the `used`
field is absent the used gauge is set to 0 and the percentage gauge to
0, whatever total and remaining say. -/
theorem quota_missing_used_zero (service : String) (d : List (String × JSON))
    (controlLogin : Option String) (st : QuotaState)
    (h : dictGet d "used" = none) :
    ∃ st2, _collect_service_quota service (.ok d) controlLogin st = .ok st2 ∧
      st2.quota_used ⟨service, loginOf d controlLogin⟩ = some 0 ∧
      st2.quota_percentage ⟨service, loginOf d controlLogin⟩ = some 0 := by
  refine ⟨_, rfl, ?_, ?_⟩
  · simp [_collect_service_quota, h, gaugeSet, _parse_bytes]
  · simp only [_collect_service_quota, h, gaugeSet, Option.getD]
    simp [_parse_bytes]

/-- Witness for amended C3: at the spec's concrete response the used
and percentage gauges both read 0. -/
theorem quota_missing_used_zero_witness :
    ∃ st2, _collect_service_quota "svc1" (.ok specQuotaResp) none emptyQuotaState =
        .ok st2 ∧
      st2.quota_used ⟨"svc1", loginOf specQuotaResp none⟩ = some 0 ∧
      st2.quota_percentage ⟨"svc1", loginOf specQuotaResp none⟩ = some 0 :=
  quota_missing_used_zero "svc1" specQuotaResp none emptyQuotaState rfl

/-- Counterexample to C4: for a quota response missing both the total
and the remaining fields the collector still sets the total and
remaining gauges — to 0 — rather than leaving them absent. -/
theorem quota_absent_fields_cex :
    (_collect_service_quota "svc1" (.ok []) none emptyQuotaState).toOption.map
        (fun st => (st.quota_total ⟨"svc1", "unknown"⟩,
          st.quota_remaining ⟨"svc1", "unknown"⟩)) =
      some (some 0, some 0) := by
  decide

/-- C4 amended: a gauge-backed field that is missing normalizes to 0
(via `.get(key, 0)` and `_parse_bytes`), and the gauge is set to 0 for
that entity's label combination rather than left absent; in particular
for a response missing both total and remaining, the total and
remaining gauges are both set to 0. -/
theorem quota_missing_fields_set_zero (service : String) (d : List (String × JSON))
    (controlLogin : Option String) (st : QuotaState)
    (ht : dictGet d "quota" = none) (hr : dictGet d "remaining" = none) :
    ∃ st2, _collect_service_quota service (.ok d) controlLogin st = .ok st2 ∧
      st2.quota_total ⟨service, loginOf d controlLogin⟩ = some 0 ∧
      st2.quota_remaining ⟨service, loginOf d controlLogin⟩ = some 0 := by
  refine ⟨_, rfl, ?_, ?_⟩
  · simp [_collect_service_quota, ht, gaugeSet, _parse_bytes]
  · simp [_collect_service_quota, hr, gaugeSet, _parse_bytes]

/-- Witness for amended C4: at the empty response both gauges are set
to 0. -/
theorem quota_missing_fields_set_zero_witness :
    ∃ st2, _collect_service_quota "svc1" (.ok []) none emptyQuotaState = .ok st2 ∧
      st2.quota_total ⟨"svc1", loginOf [] none⟩ = some 0 ∧
      st2.quota_remaining ⟨"svc1", loginOf [] none⟩ = some 0 :=
  quota_missing_fields_set_zero "svc1" [] none emptyQuotaState rfl rfl

/-- A gauge point update never clears any label combination. -/
theorem gaugeSet_isSome (g : QuotaLabels → Option ℚ) (l l2 : QuotaLabels) (v : ℚ)
    (h : g l2 ≠ none) : gaugeSet g l v l2 ≠ none := by
  unfold gaugeSet
  split <;> simp_all

/-- A successful per-service quota collection sets all four gauges for
that service's label combination. -/
theorem csq_sets (service : String) (d : List (String × JSON))
    (controlLogin : Option String) (st : QuotaState) :
    ∃ st2, _collect_service_quota service (.ok d) controlLogin st = .ok st2 ∧
      quotaSetAt st2 ⟨service, loginOf d controlLogin⟩ := by
  refine ⟨_, rfl, ?_, ?_, ?_, ?_⟩ <;> simp [gaugeSet]

/-- One iteration of the per-service loop never clears gauges that an
earlier iteration set. -/
theorem quotaFoldStep_preserves (fetchQ : String → Except PyExc (List (String × JSON)))
    (controlLogin : Option String) (st : QuotaState) (svc : String) (l : QuotaLabels)
    (h : quotaSetAt st l) : quotaSetAt (quotaFoldStep fetchQ controlLogin st svc) l := by
  obtain ⟨h1, h2, h3, h4⟩ := h
  unfold quotaFoldStep
  cases hf : fetchQ svc with
  | error e => exact ⟨h1, h2, h3, h4⟩
  | ok d =>
    exact ⟨gaugeSet_isSome _ _ _ _ h1, gaugeSet_isSome _ _ _ _ h2,
      gaugeSet_isSome _ _ _ _ h3, gaugeSet_isSome _ _ _ _ h4⟩

/-- The whole per-service loop never clears gauges set before it. -/
theorem quotaFold_preserves (fetchQ : String → Except PyExc (List (String × JSON)))
    (controlLogin : Option String) (svcs : List String) (st : QuotaState)
    (l : QuotaLabels) (h : quotaSetAt st l) :
    quotaSetAt (svcs.foldl (quotaFoldStep fetchQ controlLogin) st) l := by
  induction svcs generalizing st with
  | nil => exact h
  | cons v vs ih => exact ih _ (quotaFoldStep_preserves _ _ _ _ _ h)

/-- After the per-service loop, every service whose detail call
succeeded has all four gauges set, regardless of other services. -/
theorem quotaFold_establishes (fetchQ : String → Except PyExc (List (String × JSON)))
    (controlLogin : Option String) (svcs : List String) (st : QuotaState)
    (s : String) (d : List (String × JSON)) (hs : s ∈ svcs) (hd : fetchQ s = .ok d) :
    quotaSetAt (svcs.foldl (quotaFoldStep fetchQ controlLogin) st)
      ⟨s, loginOf d controlLogin⟩ := by
  induction svcs generalizing st with
  | nil => cases hs
  | cons v vs ih =>
    rw [List.foldl_cons]
    rcases List.mem_cons.mp hs with rfl | hmem
    · refine quotaFold_preserves _ _ _ _ _ ?_
      obtain ⟨st2, heq, hset⟩ := csq_sets s d controlLogin st
      unfold quotaFoldStep
      rw [hd, heq]
      exact hset
    · exact ih _ hmem

/-- C2: when the entity listing returns a set of service IDs and the
detail call for service `K` raises, the per-entity loop catches that
failure and continues, so the detail collection still runs and its
gauges are set for every service `s ≠ K` whose detail call succeeds,
and `_collect_impl` itself returns normally. -/
theorem per_entity_isolation (svcs : List String) (K s : String)
    (fetchQ : String → Except PyExc (List (String × JSON)))
    (controlLogin : Option String) (st : QuotaState) (e : PyExc)
    (d : List (String × JSON)) (hK : fetchQ K = .error e) (hs : s ∈ svcs)
    (hne : s ≠ K) (hd : fetchQ s = .ok d) :
    ∃ st2, _collect_impl true (.ok svcs) fetchQ controlLogin st = .ok st2 ∧
      quotaSetAt st2 ⟨s, loginOf d controlLogin⟩ :=
  ⟨_, rfl, quotaFold_establishes fetchQ controlLogin svcs st s d hs hd⟩

/-- Witness for C2: with services `["good", "bad"]` where `"bad"`
raises, the run returns normally and `"good"`'s gauges are all set. -/
theorem per_entity_isolation_witness :
    ∃ st2, _collect_impl true (.ok ["good", "bad"]) demoFetchQ none emptyQuotaState =
        .ok st2 ∧
      quotaSetAt st2 ⟨"good", loginOf [("quota", .int 100)] none⟩ :=
  per_entity_isolation ["good", "bad"] "bad" "good" demoFetchQ none emptyQuotaState
    (.genericAPIError "boom") [("quota", .int 100)] rfl (by simp) (by decide) rfl

/-- `gather` with `return_exceptions=True` always returns normally,
with result `gatherRE`. -/
theorem gather_true_eq (cs : List TierCollector) (reg : Registry) :
    gather true reg cs = .ok (gatherRE reg cs) := by
  induction cs generalizing reg with
  | nil => rfl
  | cons c cs ih =>
    unfold gather gatherRE
    cases c.run with
    | ok ws => simp [ih]
    | error e => simp [ih]

/-- The fan-out produces one outcome per collector. -/
theorem gatherRE_length (reg : Registry) (cs : List TierCollector) :
    (gatherRE reg cs).2.length = cs.length := by
  induction cs generalizing reg with
  | nil => rfl
  | cons c cs ih =>
    unfold gatherRE
    cases c.run <;> simp [ih]

/-- Gauge writes never clear a series. -/
theorem applyWrites_isSome_mono (ws : List (MetricKey × ℚ)) (reg : Registry)
    (k : MetricKey) (h : reg k ≠ none) : applyWrites reg ws k ≠ none := by
  induction ws generalizing reg with
  | nil => exact h
  | cons w ws ih =>
    unfold applyWrites
    refine ih _ ?_
    split <;> simp_all

/-- Every written key carries a value after the writes are applied. -/
theorem applyWrites_isSome_of_mem (ws : List (MetricKey × ℚ)) (reg : Registry)
    (k : MetricKey) (v : ℚ) (h : (k, v) ∈ ws) : applyWrites reg ws k ≠ none := by
  induction ws generalizing reg with
  | nil => cases h
  | cons w ws ih =>
    unfold applyWrites
    rcases List.mem_cons.mp h with heq | hmem
    · refine applyWrites_isSome_mono _ _ _ ?_
      rw [← heq]
      simp
    · exact ih _ hmem

/-- Writes to other keys leave a series untouched. -/
theorem applyWrites_notin (ws : List (MetricKey × ℚ)) (reg : Registry)
    (k : MetricKey) (h : k ∉ ws.map Prod.fst) : applyWrites reg ws k = reg k := by
  induction ws generalizing reg with
  | nil => rfl
  | cons w ws ih =>
    unfold applyWrites
    rw [ih _ (by simp_all)]
    have : k ≠ w.1 := by simp_all
    simp [this]

/-- With no duplicate keys, each written key ends at its written value. -/
theorem applyWrites_eq_of_nodup (ws : List (MetricKey × ℚ)) (reg : Registry)
    (k : MetricKey) (v : ℚ) (hmem : (k, v) ∈ ws)
    (hnd : (ws.map Prod.fst).Nodup) : applyWrites reg ws k = some v := by
  induction ws generalizing reg with
  | nil => cases hmem
  | cons w ws ih =>
    unfold applyWrites
    rcases List.mem_cons.mp hmem with heq | hmem2
    · subst heq
      have hk : k ∉ ws.map Prod.fst := by
        simp only [List.map_cons, List.nodup_cons] at hnd
        simpa using hnd.1
      rw [applyWrites_notin _ _ _ hk]
      simp
    · exact ih _ hmem2 (by simp_all [List.nodup_cons])

/-- The fan-out never clears a series. -/
theorem gatherRE_isSome_mono (cs : List TierCollector) (reg : Registry)
    (k : MetricKey) (h : reg k ≠ none) : (gatherRE reg cs).1 k ≠ none := by
  induction cs generalizing reg with
  | nil => exact h
  | cons c cs ih =>
    unfold gatherRE
    cases c.run with
    | ok ws => exact ih _ (applyWrites_isSome_mono _ _ _ h)
    | error e => exact ih _ h

/-- After the fan-out, every key written by a collector whose
`collect()` succeeded carries a value, wherever that collector sits in
the list and whatever the other collectors did. -/
theorem gatherRE_member_isSome (pre post : List TierCollector) (d : TierCollector)
    (ws : List (MetricKey × ℚ)) (reg : Registry) (k : MetricKey) (v : ℚ)
    (hok : d.run = .ok ws) (hmem : (k, v) ∈ ws) :
    (gatherRE reg (pre ++ d :: post)).1 k ≠ none := by
  induction pre generalizing reg with
  | nil =>
    rw [List.nil_append]
    unfold gatherRE
    rw [hok]
    exact gatherRE_isSome_mono _ _ _ (applyWrites_isSome_of_mem _ _ _ _ hmem)
  | cons p pre ih =>
    rw [List.cons_append]
    unfold gatherRE
    cases p.run with
    | ok pws => exact ih _
    | error e => exact ih _

/-- Collectors that write none of key `k` leave it unchanged. -/
theorem gatherRE_no_write (cs : List TierCollector) (reg : Registry) (k : MetricKey)
    (h : ∀ c ∈ cs, k ∉ keysOf c) : (gatherRE reg cs).1 k = reg k := by
  induction cs generalizing reg with
  | nil => rfl
  | cons c cs ih =>
    unfold gatherRE
    cases hr : c.run with
    | ok ws =>
      rw [ih _ (fun c2 hc2 => h c2 (List.mem_cons_of_mem _ hc2))]
      refine applyWrites_notin _ _ _ ?_
      have := h c (List.mem_cons_self _ _)
      simpa [keysOf, hr] using this
    | error e => exact ih _ (fun c2 hc2 => h c2 (List.mem_cons_of_mem _ hc2))

/-- Under disjoint metric ownership, a succeeding collector's writes
survive the fan-out at their written values. -/
theorem gatherRE_member_value (pre post : List TierCollector) (d : TierCollector)
    (ws : List (MetricKey × ℚ)) (reg : Registry) (k : MetricKey) (v : ℚ)
    (hok : d.run = .ok ws) (hmem : (k, v) ∈ ws)
    (hnd : (ws.map Prod.fst).Nodup)
    (hothers : ∀ c2 ∈ pre ++ post, k ∉ keysOf c2) :
    (gatherRE reg (pre ++ d :: post)).1 k = some v := by
  revert hothers
  induction pre generalizing reg with
  | nil =>
    intro hothers
    rw [List.nil_append]
    unfold gatherRE
    rw [hok]
    rw [gatherRE_no_write _ _ _ (fun c2 hc2 => hothers c2 (by simpa using hc2))]
    exact applyWrites_eq_of_nodup _ _ _ _ hmem hnd
  | cons p pre ih =>
    intro hothers
    rw [List.cons_append]
    unfold gatherRE
    have hothers2 : ∀ c2 ∈ pre ++ post, k ∉ keysOf c2 := by
      intro c2 hc2
      exact hothers c2 (by simp_all)
    cases p.run with
    | ok pws => exact ih _ hothers2
    | error e => exact ih _ hothers2

/-- C1: with one collector of a tier raising during a fan-out pass,
`collect_tier` still returns normally (the exception is absorbed by
`return_exceptions=True`), every collector in the tier produces an
outcome in the same pass, and every collector whose `collect()`
succeeded has its metric writes present afterwards — exactly at the
written values when collectors own disjoint metric keys. -/
theorem fanout_isolation (pre post : List TierCollector) (d c : TierCollector)
    (ws : List (MetricKey × ℚ)) (e : PyExc) (reg : Registry)
    (hfail : c ∈ pre ++ post) (hce : c.run = .error e) (hok : d.run = .ok ws) :
    collect_tier (pre ++ d :: post) reg = .ok (gatherRE reg (pre ++ d :: post)) ∧
    (gatherRE reg (pre ++ d :: post)).2.length = (pre ++ d :: post).length ∧
    (∀ kv ∈ ws, (gatherRE reg (pre ++ d :: post)).1 kv.1 ≠ none) ∧
    ((ws.map Prod.fst).Nodup →
      (∀ c2 ∈ pre ++ post, ∀ kv ∈ ws, kv.1 ∉ keysOf c2) →
      ∀ kv ∈ ws, (gatherRE reg (pre ++ d :: post)).1 kv.1 = some kv.2) := by
  refine ⟨gather_true_eq _ _, gatherRE_length _ _, ?_, ?_⟩
  · intro kv hkv
    exact gatherRE_member_isSome pre post d ws reg kv.1 kv.2 hok hkv
  · intro hnd hdisj kv hkv
    exact gatherRE_member_value pre post d ws reg kv.1 kv.2 hok hkv hnd
      (fun c2 hc2 => hdisj c2 hc2 kv hkv)

/-- Witness for C1: one failing and one succeeding collector in a
tier; the pass returns normally and the succeeding collector's gauge
carries its written value. -/
theorem fanout_isolation_witness :
    collect_tier [demoCollectorFail, demoCollectorOk] emptyRegistry =
      .ok (gatherRE emptyRegistry [demoCollectorFail, demoCollectorOk]) ∧
    (gatherRE emptyRegistry [demoCollectorFail, demoCollectorOk]).1 demoKey = some 5 := by
  have h := fanout_isolation [demoCollectorFail] [] demoCollectorOk demoCollectorFail
    [(demoKey, 5)] (.genericAPIError "boom") emptyRegistry (by simp) rfl rfl
  refine ⟨h.1, ?_⟩
  have h4 := h.2.2.2 (by simp)
    (by
      intro c2 hc2 kv hkv
      simp only [List.append_nil, List.mem_singleton] at hc2
      subst hc2
      simp [keysOf, demoCollectorFail])
    (demoKey, 5) (by simp)
  exact h4

end AaispExporter
